import Mathlib

/-!
# Verification of the battlesnakes server against its specification

This file gives a shallow embedding in Lean of the game logic of the
battlesnakes repository (backend `server.js`, frontend `snake.js` and
`food.js`) and proves or refutes the frozen claims about it.

Conventions of the embedding:

* JavaScript numbers used as grid coordinates and direction components are
  embedded as `Int` (they are only ever added, negated and compared).
* The `players` object of the server, iterated with `for (const id in players)`
  in insertion order, is embedded as an association list
  `List (String × Player)`; the per-tick loops, which never look at the keys,
  act on the projected `List Player` in the same order.
* The two `do/while (collision)` rejection-sampling loops around
  `Math.random()` (`spawnFood` and the spawn placement of
  `setupPlayerForGame`) are embedded as functions over an explicit list of
  candidate draws, returning the first accepted draw (`Option` result: `none`
  means the finite candidate list was exhausted).
* The body of the `playerDirectionChange` handler of the latest `server.js`
  carries a stray closing brace at line 217 (left over from the
  `if (player) { ... }` block of the previous revision, visible in the
  historical copy of the file); the handler is embedded as the evident
  statement sequence of lines 201-216.
-/

namespace Battlesnakes

/-- Fixed grid width of the server (`FIXED_TILE_COUNT_X` in `server.js`). -/
abbrev FIXED_TILE_COUNT_X : Int := 40

/-- Fixed grid height of the server (`FIXED_TILE_COUNT_Y` in `server.js`). -/
abbrev FIXED_TILE_COUNT_Y : Int := 30

/-- A grid cell, the `{x, y}` objects of the source. -/
structure Pos where
  x : Int
  y : Int
deriving DecidableEq, Repr

/-- The two gamemodes of the server. -/
inductive Gamemode where
  | competitive
  | cooperative
deriving DecidableEq, Repr

/-- The session phase, `gameState` in `server.js` (`lobby` or `ingame`). -/
inductive GamePhase where
  | lobby
  | ingame
deriving DecidableEq, Repr

/-- A server-side player record (the mutable fields of the objects stored in
the `players` map of `server.js` that the game logic reads or writes; the
cosmetic `color` field is omitted).  A player that joined during an active
round has no snake fields yet; this is embedded as `body = []`. -/
structure Player where
  dx : Int := 1
  dy : Int := 0
  body : List Pos := []
  x : Int := 0
  y : Int := 0
  score : Nat := 0
  isAlive : Bool := true
  isReady : Bool := false
deriving DecidableEq, Repr

/-- The head cell `player.body[0]` (default irrelevant: only read on nonempty
bodies, mirroring the nonempty-body guards of the source). -/
def headOf (p : Player) : Pos := p.body.headD ⟨0, 0⟩

/-- A cell lies inside the fixed grid. -/
abbrev inBoundsP (c : Pos) : Prop :=
  0 ≤ c.x ∧ c.x < FIXED_TILE_COUNT_X ∧ 0 ≤ c.y ∧ c.y < FIXED_TILE_COUNT_Y

/-- Step 1 of the tick loop (`server.js` lines 242-260): the candidate new
head `pendingHead` of a player, present exactly when the player is alive and
has a nonempty body. -/
def candidateHead (p : Player) : Option Pos :=
  if p.isAlive ∧ p.body ≠ [] then
    some ⟨(headOf p).x + p.dx, (headOf p).y + p.dy⟩
  else
    none

/-- Result of the per-player part of step 2 of the tick loop. -/
structure MoveOutcome where
  player : Player
  ate : Bool
deriving Repr

/-- Step 2 of the tick loop for one player (`server.js` lines 264-317):
food consumption (score increment and tail duplication), wall collision,
self collision, and movement commitment (`unshift` new head, `pop` tail,
update `x`/`y`) for players still alive after the checks. -/
def movePlayer (food : Pos) (p : Player) : MoveOutcome :=
  match candidateHead p with
  | none => ⟨p, false⟩
  | some head =>
    let ate : Bool := decide (head = food)
    let p1 : Player :=
      if head = food then
        { p with score := p.score + 1,
                 body := p.body ++ [p.body.getLastD ⟨0, 0⟩] }
      else p
    let p2 : Player :=
      if head.x < 0 ∨ head.x ≥ FIXED_TILE_COUNT_X ∨
          head.y < 0 ∨ head.y ≥ FIXED_TILE_COUNT_Y then
        { p1 with isAlive := false }
      else p1
    let p3 : Player :=
      if p2.isAlive ∧ head ∈ p2.body.drop 1 then
        { p2 with isAlive := false }
      else p2
    let p4 : Player :=
      if p3.isAlive then
        { p3 with body := (head :: p3.body).dropLast, x := head.x, y := head.y }
      else p3
    ⟨p4, ate⟩

/-- Steps 1-2 of the tick loop over the whole player list, preserving order.
Returns the updated players together with the number of players that ate the
food this tick (`foodEatenThisTick` is true iff that number is nonzero, and
in cooperative mode `teamScore` is incremented once per eater). -/
def moveAll (food : Pos) : List Player → List Player × Nat
  | [] => ([], 0)
  | p :: ps =>
    let r := movePlayer food p
    let rest := moveAll food ps
    (r.player :: rest.1, (if r.ate then 1 else 0) + rest.2)

/-- Sets `isAlive := false` on the player at index `i` (a single mutation of
the snake-vs-snake collision loop of `server.js`). -/
def killAt (ps : List Player) (i : Nat) : List Player :=
  match ps.get? i with
  | some p => ps.set i { p with isAlive := false }
  | none => ps

/-- The first head-to-body check of the collision loop (`server.js`
lines 346-355): if player `i` is still alive at this point and `head1` lies
in the body of `p2`, player `i` dies. -/
def headToBody1 (i : Nat) (head1 : Pos) (p2 : Player) (ps : List Player) :
    List Player :=
  match ps.get? i with
  | some p1 => if p1.isAlive ∧ head1 ∈ p2.body then killAt ps i else ps
  | none => ps

/-- The second head-to-body check of the collision loop (`server.js`
lines 356-365): if player `j` is still alive at this point and `head2` lies
in the current body of player `i`, player `j` dies. -/
def headToBody2 (i j : Nat) (head2 : Pos) (ps : List Player) : List Player :=
  match ps.get? j, ps.get? i with
  | some q2, some q1 =>
    if q2.isAlive ∧ head2 ∈ q1.body then killAt ps j else ps
  | _, _ => ps

/-- The body of the inner `j` loop of the snake-vs-snake collision step
(`server.js` lines 333-367): `head1` is the head of player `i` captured at
the top of the outer iteration; first the head-to-head check (killing both
unconditionally), otherwise the two head-to-body checks, each guarded by the
current alive flag of the snake whose head is tested. -/
def innerStep (i : Nat) (head1 : Pos) (ps : List Player) (j : Nat) : List Player :=
  match ps.get? j with
  | none => ps
  | some p2 =>
    if ¬ p2.isAlive ∨ p2.body = [] then ps
    else if head1 = headOf p2 then
      killAt (killAt ps i) j
    else
      headToBody2 i j (headOf p2) (headToBody1 i head1 p2 ps)

/-- The body of the outer `i` loop of the snake-vs-snake collision step
(`server.js` lines 326-368): skip dead or bodiless players, otherwise run the
inner loop over all indices `j > i`. -/
def outerStep (ps : List Player) (i : Nat) : List Player :=
  match ps.get? i with
  | none => ps
  | some p1 =>
    if ¬ p1.isAlive ∨ p1.body = [] then ps
    else
      (List.range ps.length).foldl
        (fun acc j => if i < j then innerStep i (headOf p1) acc j else acc) ps

/-- Step 3 of the tick loop (`server.js` lines 323-369): snake-vs-snake
collisions, run only in competitive mode. -/
def snakeCollisions (ps : List Player) : List Player :=
  (List.range ps.length).foldl outerStep ps

/-- Number of players whose `isAlive` flag is set. -/
def aliveCount (ps : List Player) : Nat :=
  (ps.filter (fun p => p.isAlive)).length

/-- Step 4 of the tick loop (`server.js` lines 371-382): the game-over
condition, computed from the current player list. -/
def gameShouldEnd (mode : Gamemode) (ps : List Player) : Bool :=
  match mode with
  | .cooperative => decide (aliveCount ps = 0 ∧ 0 < ps.length)
  | .competitive =>
    decide (aliveCount ps ≤ (if 1 < ps.length then 1 else 0) ∧ 0 < ps.length)

/-- Result of one tick of the game loop, before the food respawn draw (the
respawn, which runs between steps 2 and 3 in the source, only moves the food
coordinates and is modelled separately by `spawnFood`). -/
structure TickResult where
  players : List Player
  eaters : Nat
  teamScore : Nat
  gameOver : Bool
deriving Repr

/-- One tick of the `setInterval` game loop of `server.js` (lines 235-398)
while `gameState = ingame`: movement with food/wall/self collision handling
and commitment, then (competitive only) snake-vs-snake collisions, then the
game-over check.  `TickResult.eaters ≠ 0` is `foodEatenThisTick`. -/
def tick (mode : Gamemode) (food : Pos) (teamScore : Nat) (ps : List Player) :
    TickResult :=
  let m := moveAll food ps
  let ps2 := if mode = .competitive then snakeCollisions m.1 else m.1
  { players := ps2
    eaters := m.2
    teamScore := teamScore + (if mode = .cooperative then m.2 else 0)
    gameOver := gameShouldEnd mode ps2 }

/-- The core of the `playerDirectionChange` handler of `server.js`
(lines 203-216), reached when the session is in game and the player exists:
reject reversal on a moving axis, reject the zero and the diagonal requests,
otherwise store the request. -/
def directionChangeServer (p : Player) (ndx ndy : Int) : Player :=
  if p.dx ≠ 0 ∧ ndx ≠ 0 ∧ p.dx = -ndx then p
  else if p.dy ≠ 0 ∧ ndy ≠ 0 ∧ p.dy = -ndy then p
  else if (ndx = 0 ∧ ndy = 0) ∨ (ndx ≠ 0 ∧ ndy ≠ 0) then p
  else { p with dx := ndx, dy := ndy }

/-- The process-wide session state of `server.js`: phase, the pending lobby
gamemode, the locked-in gamemode of the active round, the cooperative team
score, the player map (as an association list in insertion order) and the
food. -/
structure Session where
  gameState : GamePhase
  currentGamemode : Gamemode
  activeGamemode : Gamemode
  teamScore : Nat
  players : List (String × Player)
  food : Pos
deriving DecidableEq, Repr

/-- Lookup `players[id]`. -/
def findPlayer (ps : List (String × Player)) (pid : String) : Option Player :=
  (ps.find? (fun q => q.1 == pid)).map (fun q => q.2)

/-- Mutate the entry stored under `pid` in place (keys are unique in the
source map, so mapping over all entries with that key is the same). -/
def updatePlayer (ps : List (String × Player)) (pid : String)
    (f : Player → Player) : List (String × Player) :=
  ps.map (fun q => if q.1 == pid then (q.1, f q.2) else q)

/-- The `playerDirectionChange` socket handler of `server.js`
(lines 200-216): ignore the message unless the session is in game and the
player exists, otherwise run the direction-change core on that player. -/
def handleDirectionChange (s : Session) (pid : String) (ndx ndy : Int) :
    Session :=
  if s.gameState ≠ .ingame ∨ findPlayer s.players pid = none then s
  else
    { s with
      players := updatePlayer s.players pid
        (fun p => directionChangeServer p ndx ndy) }

/-- The `checkAllPlayersReady` function of `server.js` (lines 117-123). -/
def checkAllPlayersReady (ps : List (String × Player)) : Bool :=
  if ps.length = 0 then false
  else if ps.length < 1 then false
  else ps.all (fun q => q.2.isReady)

/-- The `playerReadyToggle` socket handler of `server.js` (lines 168-178):
if the player exists its readiness flag is flipped unconditionally; the
returned boolean records whether `startGame()` is invoked, which happens
exactly when the session is in the lobby and all players are then ready. -/
def playerReadyToggle (s : Session) (pid : String) : Session × Bool :=
  match findPlayer s.players pid with
  | none => (s, false)
  | some _ =>
    let players1 := updatePlayer s.players pid
      (fun p => { p with isReady := !p.isReady })
    ({ s with players := players1 },
     decide (s.gameState = .lobby) && checkAllPlayersReady players1)

/-- The `disconnect` socket handler of `server.js` (lines 180-198): the
entry is deleted; if the session was in game and no player remains, the
session returns to the lobby. -/
def handleDisconnect (s : Session) (pid : String) : Session :=
  let players1 := s.players.filter (fun q => !(q.1 == pid))
  if s.gameState = .ingame ∧ players1.length = 0 then
    { s with players := players1, gameState := .lobby }
  else
    { s with players := players1 }

/-- The rejection predicate of the `spawnFood` loop of `server.js`
(lines 101-112): the drawn cell lies on the body of some living player. -/
def onAnyLivingSnake (c : Pos) (ps : List (String × Player)) : Bool :=
  ps.any (fun q => q.2.isAlive && decide (c ∈ q.2.body))

/-- The `spawnFood` function of `server.js` (lines 94-115), with the
`Math.random()` draws made explicit: the first candidate cell not on any
living snake becomes the food position (`none` when the finite candidate
list is exhausted; the source loops forever instead). -/
def spawnFood (ps : List (String × Player)) : List Pos → Option Pos
  | [] => none
  | c :: rest => if onAnyLivingSnake c ps then spawnFood ps rest else some c

/-- The `Food.spawn` method of the frontend `food.js` (lines 13-32), with
the draws made explicit: the first candidate cell not on the given snake
body. -/
def foodSpawn (snakeBody : List Pos) : List Pos → Option Pos
  | [] => none
  | c :: rest => if c ∈ snakeBody then foodSpawn snakeBody rest else some c

/-- The spawn-placement loop of `setupPlayerForGame` in `server.js`
(lines 55-68): the first candidate cell different from every recorded head
position of the already placed players. -/
def chooseSpawn (heads : List Pos) : List Pos → Option Pos
  | [] => none
  | c :: rest => if c ∈ heads then chooseSpawn heads rest else some c

/-- The initial-body construction of `setupPlayerForGame` in `server.js`
(lines 72-85), with the bounded loop unrolled: one segment at the spawn
cell plus up to two segments to its left, stopping at the grid edge. -/
def buildBody (x y : Int) : List Pos :=
  if 0 ≤ x - 1 then
    if 0 ≤ x - 2 then [⟨x, y⟩, ⟨x - 1, y⟩, ⟨x - 2, y⟩]
    else [⟨x, y⟩, ⟨x - 1, y⟩]
  else [⟨x, y⟩]

/-- The `setupPlayerForGame` function of `server.js` (lines 53-92):
choose a spawn cell avoiding the recorded head positions of the other
players, build the clipped initial body, reset direction, score and the
alive flag. -/
def setupPlayerForGame (existingHeads : List Pos) (candidates : List Pos)
    (p : Player) : Option Player :=
  (chooseSpawn existingHeads candidates).map fun c =>
    { p with x := c.x, y := c.y, body := buildBody c.x c.y,
             dx := 1, dy := 0, score := 0, isAlive := true }

/-- The client-side snake of the frontend `snake.js` (the fields its
`changeDirection` logic reads or writes, plus the snake state proper;
cosmetic fields omitted). -/
structure Snake where
  dx : Int := 1
  dy : Int := 0
  body : List Pos := []
  x : Int := 0
  y : Int := 0
  isAlive : Bool := true
  canChangeDirection : Bool := true
deriving DecidableEq, Repr

/-- The `Snake.changeDirection` method of the frontend `snake.js`
(lines 86-113): the one-tick lock, the two reversal checks, the
identical-direction check and the two same-axis checks; an accepted request
is stored and re-arms the lock. -/
def Snake.changeDirection (s : Snake) (ndx ndy : Int) : Snake :=
  if !s.canChangeDirection then s
  else if s.dx ≠ 0 ∧ ndx ≠ 0 ∧ s.dx = -ndx then s
  else if s.dy ≠ 0 ∧ ndy ≠ 0 ∧ s.dy = -ndy then s
  else if s.dx = ndx ∧ s.dy = ndy then s
  else if s.dx ≠ 0 ∧ ndx ≠ 0 then s
  else if s.dy ≠ 0 ∧ ndy ≠ 0 then s
  else { s with dx := ndx, dy := ndy, canChangeDirection := false }

/-! ## Helper lemmas about the tick loop -/

/-- A tick-step-2 move that does not eat and survives: the candidate head is
committed, the tail is removed, `x`/`y` are updated, nothing else changes. -/
theorem movePlayer_no_eat (food : Pos) (p : Player) (c : Pos)
    (hc : c = ⟨(headOf p).x + p.dx, (headOf p).y + p.dy⟩)
    (halive : p.isAlive = true) (hbody : p.body ≠ [])
    (hfood : c ≠ food) (hin : inBoundsP c) (hself : c ∉ p.body.drop 1) :
    movePlayer food p =
      ⟨{ p with body := (c :: p.body).dropLast, x := c.x, y := c.y }, false⟩ := by
  obtain ⟨hx0, hx1, hy0, hy1⟩ := hin
  rw [hc] at hfood hself hx0 hx1 hy0 hy1 ⊢
  dsimp only at hx0 hx1 hy0 hy1 ⊢
  have hwall : ¬ ((headOf p).x + p.dx < 0 ∨
      (headOf p).x + p.dx ≥ FIXED_TILE_COUNT_X ∨
      (headOf p).y + p.dy < 0 ∨
      (headOf p).y + p.dy ≥ FIXED_TILE_COUNT_Y) := by omega
  unfold movePlayer candidateHead
  simp only [if_pos (show (p.isAlive = true) ∧ p.body ≠ [] from ⟨halive, hbody⟩),
    if_neg hfood, if_neg hwall,
    if_neg (show ¬ (p.isAlive = true ∧
      (⟨(headOf p).x + p.dx, (headOf p).y + p.dy⟩ : Pos) ∈ List.drop 1 p.body)
      from fun h => hself h.2),
    if_pos halive, decide_eq_false hfood]

/-- A tick-step-2 move that eats and survives: score is incremented, the
tail is duplicated, the candidate head is committed; the net body is the
candidate head consed onto the whole previous body (length +1). -/
theorem movePlayer_eat (food : Pos) (p : Player) (c : Pos)
    (hc : c = ⟨(headOf p).x + p.dx, (headOf p).y + p.dy⟩)
    (halive : p.isAlive = true) (hbody : p.body ≠ [])
    (hfood : c = food) (hin : inBoundsP c)
    (hself : c ∉ (p.body ++ [p.body.getLastD ⟨0, 0⟩]).drop 1) :
    movePlayer food p =
      ⟨{ p with score := p.score + 1, body := c :: p.body,
                x := c.x, y := c.y }, true⟩ := by
  obtain ⟨hx0, hx1, hy0, hy1⟩ := hin
  rw [hc] at hfood hself hx0 hx1 hy0 hy1 ⊢
  dsimp only at hx0 hx1 hy0 hy1 ⊢
  have hwall : ¬ ((headOf p).x + p.dx < 0 ∨
      (headOf p).x + p.dx ≥ FIXED_TILE_COUNT_X ∨
      (headOf p).y + p.dy < 0 ∨
      (headOf p).y + p.dy ≥ FIXED_TILE_COUNT_Y) := by omega
  unfold movePlayer candidateHead
  simp only [if_pos (show (p.isAlive = true) ∧ p.body ≠ [] from ⟨halive, hbody⟩),
    if_pos hfood, if_neg hwall,
    if_neg (show ¬ (p.isAlive = true ∧
      (⟨(headOf p).x + p.dx, (headOf p).y + p.dy⟩ : Pos) ∈
        List.drop 1 (p.body ++ [p.body.getLastD ⟨0, 0⟩]))
      from fun h => hself h.2),
    if_pos halive, decide_eq_true hfood]
  have hdrop :
      (⟨(headOf p).x + p.dx, (headOf p).y + p.dy⟩ ::
          (p.body ++ [p.body.getLastD ⟨0, 0⟩])).dropLast =
        ⟨(headOf p).x + p.dx, (headOf p).y + p.dy⟩ :: p.body := by
    rw [show (⟨(headOf p).x + p.dx, (headOf p).y + p.dy⟩ : Pos) ::
          (p.body ++ [p.body.getLastD ⟨0, 0⟩]) =
          (⟨(headOf p).x + p.dx, (headOf p).y + p.dy⟩ :: p.body) ++
            [p.body.getLastD ⟨0, 0⟩] by simp,
      List.dropLast_concat]
  rw [hdrop]

/-- A tick-step-2 move that eats the food and then dies of self collision:
score is still incremented, the duplicated tail segment stays, but the
candidate head is never committed and `x`/`y` keep their old values. -/
theorem movePlayer_eat_die (food : Pos) (p : Player) (c : Pos)
    (hc : c = ⟨(headOf p).x + p.dx, (headOf p).y + p.dy⟩)
    (halive : p.isAlive = true) (hbody : p.body ≠ [])
    (hfood : c = food) (hin : inBoundsP c)
    (hself : c ∈ p.body.drop 1) :
    movePlayer food p =
      ⟨{ p with score := p.score + 1,
                body := p.body ++ [p.body.getLastD ⟨0, 0⟩],
                isAlive := false }, true⟩ := by
  have hself2 : c ∈ (p.body ++ [p.body.getLastD ⟨0, 0⟩]).drop 1 := by
    rw [List.drop_append_of_le_length
      (by have := List.length_pos.mpr hbody; omega)]
    exact List.mem_append_left _ hself
  obtain ⟨hx0, hx1, hy0, hy1⟩ := hin
  rw [hc] at hfood hself2 hx0 hx1 hy0 hy1
  dsimp only at hx0 hx1 hy0 hy1
  have hwall : ¬ ((headOf p).x + p.dx < 0 ∨
      (headOf p).x + p.dx ≥ FIXED_TILE_COUNT_X ∨
      (headOf p).y + p.dy < 0 ∨
      (headOf p).y + p.dy ≥ FIXED_TILE_COUNT_Y) := by omega
  unfold movePlayer candidateHead
  simp only [if_pos (show (p.isAlive = true) ∧ p.body ≠ [] from ⟨halive, hbody⟩),
    if_pos hfood, if_neg hwall,
    if_pos (show p.isAlive = true ∧
      (⟨(headOf p).x + p.dx, (headOf p).y + p.dy⟩ : Pos) ∈
        List.drop 1 (p.body ++ [p.body.getLastD ⟨0, 0⟩])
      from ⟨halive, hself2⟩),
    if_neg (show ¬ (false = true) by simp), decide_eq_true hfood]

/-- Step 2 applies `movePlayer` to each player independently, in order. -/
theorem moveAll_fst (food : Pos) (ps : List Player) :
    (moveAll food ps).1 = ps.map (fun p => (movePlayer food p).player) := by
  induction ps with
  | nil => rfl
  | cons p t ih => simp [moveAll, ih]

/-- Forgetting the alive flag of a player. -/
def stripAlive (p : Player) : Player := { p with isAlive := true }

/-- Setting an index of a list to the value it already holds is a no-op. -/
theorem list_set_self {α : Type} (l : List α) (i : Nat) (a : α)
    (h : l.get? i = some a) : l.set i a = l := by
  induction l generalizing i with
  | nil => simp at h
  | cons b t ih =>
    cases i with
    | zero => simp_all
    | succ n =>
      simp only [List.get?_cons_succ] at h
      simp [ih n h]

/-- Killing a snake changes nothing but its alive flag. -/
theorem killAt_strip (ps : List Player) (i : Nat) :
    (killAt ps i).map stripAlive = ps.map stripAlive := by
  unfold killAt
  cases h : ps.get? i with
  | none => rfl
  | some p =>
    have hm : (ps.map stripAlive).get? i = some (stripAlive p) := by
      rw [List.get?_map, h]; rfl
    rw [List.map_set]
    exact list_set_self _ _ _ hm

/-- The first head-to-body check changes nothing but alive flags. -/
theorem headToBody1_strip (i : Nat) (h1 : Pos) (p2 : Player) (ps : List Player) :
    (headToBody1 i h1 p2 ps).map stripAlive = ps.map stripAlive := by
  unfold headToBody1
  split
  · split
    · exact killAt_strip ps i
    · rfl
  · rfl

/-- The second head-to-body check changes nothing but alive flags. -/
theorem headToBody2_strip (i j : Nat) (h2 : Pos) (ps : List Player) :
    (headToBody2 i j h2 ps).map stripAlive = ps.map stripAlive := by
  unfold headToBody2
  split
  · split
    · exact killAt_strip ps j
    · rfl
  · rfl

/-- The inner collision loop body changes nothing but alive flags. -/
theorem innerStep_strip (i : Nat) (h1 : Pos) (ps : List Player) (j : Nat) :
    (innerStep i h1 ps j).map stripAlive = ps.map stripAlive := by
  unfold innerStep
  split
  · rfl
  · split
    · rfl
    · split
      · rw [killAt_strip, killAt_strip]
      · rw [headToBody2_strip, headToBody1_strip]

/-- A fold whose step changes nothing but alive flags changes nothing but
alive flags. -/
theorem foldl_strip {β : Type} (f : List Player → β → List Player)
    (H : ∀ acc b, (f acc b).map stripAlive = acc.map stripAlive) :
    ∀ (l : List β) (init : List Player),
      (l.foldl f init).map stripAlive = init.map stripAlive
  | [], _ => rfl
  | b :: t, init => by
    rw [List.foldl_cons, foldl_strip f H t (f init b), H]

/-- The outer collision loop body changes nothing but alive flags. -/
theorem outerStep_strip (ps : List Player) (i : Nat) :
    (outerStep ps i).map stripAlive = ps.map stripAlive := by
  unfold outerStep
  split
  · rfl
  · split
    · rfl
    · refine foldl_strip _ (fun acc j => ?_) _ ps
      split
      · exact innerStep_strip _ _ acc j
      · rfl

/-- The snake-vs-snake collision step changes nothing but alive flags. -/
theorem snakeCollisions_strip (ps : List Player) :
    (snakeCollisions ps).map stripAlive = ps.map stripAlive := by
  unfold snakeCollisions
  exact foldl_strip _ outerStep_strip _ ps

/-- The collision step preserves every player entry up to the alive flag. -/
theorem snakeCollisions_get? (ps : List Player) (i : Nat) :
    ((snakeCollisions ps).get? i).map stripAlive = (ps.get? i).map stripAlive := by
  rw [← List.get?_map, ← List.get?_map, snakeCollisions_strip]

/-- The collision step on a single player does nothing. -/
theorem snakeCollisions_singleton (q : Player) :
    snakeCollisions [q] = [q] := by
  unfold snakeCollisions outerStep
  simp [List.range_succ]

/-! ## Claim C2: the server-side direction-change rule -/

/-- C2, counterexample.  The claim says that of two turn requests arriving
within the same tick only the first is applied.  The server keeps no
per-tick lock: starting from direction `(1, 0)`, the request `(0, 1)` is
accepted and then the request `(-1, 0)` arriving in the same tick is also
accepted (it is judged against the new direction `(0, 1)`), so the stored
direction ends as `(-1, 0)` and not at the first request `(0, 1)`; the
snake has reversed within one tick. -/
theorem C2_counterexample :
    ((directionChangeServer (directionChangeServer
        { dx := 1, dy := 0 } 0 1) (-1) 0).dx = -1 ∧
     (directionChangeServer (directionChangeServer
        { dx := 1, dy := 0 } 0 1) (-1) 0).dy = 0) ∧
    ¬ ((directionChangeServer (directionChangeServer
        { dx := 1, dy := 0 } 0 1) (-1) 0).dx = 0 ∧
       (directionChangeServer (directionChangeServer
        { dx := 1, dy := 0 } 0 1) (-1) 0).dy = 1) := by
  decide

/-- C2 (amended): the server stores no per-tick lock; every
`playerDirectionChange` message is judged against the currently stored
direction.  A request leaves the stored `dx, dy` unchanged iff it is
identical to the current direction, it exactly reverses a currently
non-zero axis component, it is the zero request, or it is diagonal (both
components non-zero). -/
theorem C2_amended_rejection_rule (p : Player) (ndx ndy : Int) :
    ((directionChangeServer p ndx ndy).dx = p.dx ∧
     (directionChangeServer p ndx ndy).dy = p.dy) ↔
      ((p.dx = ndx ∧ p.dy = ndy) ∨
       (p.dx ≠ 0 ∧ ndx ≠ 0 ∧ p.dx = -ndx) ∨
       (p.dy ≠ 0 ∧ ndy ≠ 0 ∧ p.dy = -ndy) ∨
       (ndx = 0 ∧ ndy = 0) ∨ (ndx ≠ 0 ∧ ndy ≠ 0)) := by
  unfold directionChangeServer
  split_ifs with h1 h2 h3
  · exact iff_of_true ⟨rfl, rfl⟩ (Or.inr (Or.inl h1))
  · exact iff_of_true ⟨rfl, rfl⟩ (Or.inr (Or.inr (Or.inl h2)))
  · rcases h3 with h3 | h3
    · exact iff_of_true ⟨rfl, rfl⟩ (Or.inr (Or.inr (Or.inr (Or.inl h3))))
    · exact iff_of_true ⟨rfl, rfl⟩ (Or.inr (Or.inr (Or.inr (Or.inr h3))))
  · constructor
    · rintro ⟨ha, hb⟩
      exact Or.inl ⟨ha.symm, hb.symm⟩
    · rintro (⟨ha, hb⟩ | h | h | h | h)
      · exact ⟨ha.symm, hb.symm⟩
      · exact absurd h h1
      · exact absurd h h2
      · exact absurd (Or.inl h) h3
      · exact absurd (Or.inr h) h3

/-! ## Claim C3: the competitive game-over threshold -/

/-- C3, counterexample.  A competitive round that started with the two
players `A` and `B` (both alive); `B` disconnects mid-round, which deletes
its entry from the player map.  The claim fixes the threshold by the
round-start count (2 players, threshold 1), so with 1 living snake the round
should terminate; the code recomputes the threshold from the current map
size (1 player, threshold 0) and the round continues. -/
theorem C3_counterexample :
    aliveCount (((handleDisconnect
      { gameState := .ingame, currentGamemode := .competitive,
        activeGamemode := .competitive, teamScore := 0,
        players := [("A", { body := [⟨5, 5⟩], isAlive := true }),
                    ("B", { body := [⟨9, 9⟩], isAlive := true })],
        food := ⟨0, 0⟩ } "B").players).map (fun q => q.2)) = 1 ∧
    gameShouldEnd .competitive (((handleDisconnect
      { gameState := .ingame, currentGamemode := .competitive,
        activeGamemode := .competitive, teamScore := 0,
        players := [("A", { body := [⟨5, 5⟩], isAlive := true }),
                    ("B", { body := [⟨9, 9⟩], isAlive := true })],
        food := ⟨0, 0⟩ } "B").players).map (fun q => q.2)) = false := by
  constructor <;> rfl

/-- C3 (amended): in competitive mode the round terminates exactly when the
number of living snakes is at most 1 if the player map currently holds at
least 2 entries, or 0 if it currently holds exactly 1 — the threshold is
recomputed from the player count at the moment of the check, so mid-round
joins and disconnects move it. -/
theorem C3_amended_game_over_threshold (ps : List Player) :
    gameShouldEnd .competitive ps = true ↔
      (2 ≤ ps.length ∧ aliveCount ps ≤ 1) ∨
      (ps.length = 1 ∧ aliveCount ps = 0) := by
  simp only [gameShouldEnd, decide_eq_true_eq]
  by_cases h : 1 < ps.length
  · rw [if_pos h]; omega
  · rw [if_neg h]; omega

/-! ## Claim C4: client/server direction-change equivalence -/

/-- C4, counterexample.  Same prior state (direction `(1, 0)`, lock
engaged) and same request `(0, 1)`: the client `Snake.changeDirection`
rejects the request because of its one-tick lock, while the server handler,
which has no lock at all, accepts it — the two decisions differ. -/
theorem C4_counterexample :
    ((Snake.changeDirection
        { dx := 1, dy := 0, canChangeDirection := false } 0 1).dx = 1 ∧
     (Snake.changeDirection
        { dx := 1, dy := 0, canChangeDirection := false } 0 1).dy = 0) ∧
    ((directionChangeServer { dx := 1, dy := 0 } 0 1).dx = 0 ∧
     (directionChangeServer { dx := 1, dy := 0 } 0 1).dy = 1) := by
  decide

/-- C4 (amended): when the client lock is disengaged, the prior direction
is a unit axis vector or zero, and the request is a unit axis vector, the
client and the server store the same resulting direction; the decisions
can differ only through the client-only lock or through requests outside
that shape (the zero request is accepted by the client but rejected by the
server, and out-of-range components are rejected by the client whenever it
is moving on the requested axis but can be accepted by the server). -/
theorem C4_amended_agreement (s : Snake) (p : Player) (ndx ndy : Int)
    (hlock : s.canChangeDirection = true)
    (hdx : p.dx = s.dx) (hdy : p.dy = s.dy)
    (hvx : s.dx = 0 ∨ s.dx = 1 ∨ s.dx = -1)
    (hvy : s.dy = 0 ∨ s.dy = 1 ∨ s.dy = -1)
    (hax : ¬ (s.dx ≠ 0 ∧ s.dy ≠ 0))
    (hreq : (ndx = 1 ∧ ndy = 0) ∨ (ndx = -1 ∧ ndy = 0) ∨
            (ndx = 0 ∧ ndy = 1) ∨ (ndx = 0 ∧ ndy = -1)) :
    (Snake.changeDirection s ndx ndy).dx = (directionChangeServer p ndx ndy).dx ∧
    (Snake.changeDirection s ndx ndy).dy = (directionChangeServer p ndx ndy).dy := by
  rcases hreq with ⟨h1, h2⟩ | ⟨h1, h2⟩ | ⟨h1, h2⟩ | ⟨h1, h2⟩ <;>
    rcases hvx with hx | hx | hx <;> rcases hvy with hy | hy | hy <;>
      first
        | exact absurd ⟨by omega, by omega⟩ hax
        | simp_all [Snake.changeDirection, directionChangeServer]

/-- C4 witness: a concrete agreeing instance, both sides turning an
eastbound snake south. -/
theorem C4_witness :
    (Snake.changeDirection { dx := 1, dy := 0 } 0 1).dx =
      (directionChangeServer { dx := 1, dy := 0 } 0 1).dx ∧
    (Snake.changeDirection { dx := 1, dy := 0 } 0 1).dy =
      (directionChangeServer { dx := 1, dy := 0 } 0 1).dy :=
  C4_amended_agreement { dx := 1, dy := 0 } { dx := 1, dy := 0 } 0 1 rfl rfl rfl
    (Or.inr (Or.inl rfl)) (Or.inl rfl) (by decide)
    (Or.inr (Or.inr (Or.inl ⟨rfl, rfl⟩)))

/-! ## Claim C6: malformed direction intents -/

/-- C6: the handler comment in `server.js` announces a validation that
`dx` and `dy` are `-1`, `0` or `1`, but no such check exists in the code.
While in game, the request `(2, 0)` for a snake moving `(1, 0)` passes the
reversal check (`1 = -2` is false) and the zero/diagonal check, and the
stored direction becomes `(2, 0)` — the snake then moves two cells per
tick.  This evaluates the handler at that failing input. -/
theorem C6_out_of_range_direction_stored :
    (findPlayer (handleDirectionChange
      { gameState := .ingame, currentGamemode := .competitive,
        activeGamemode := .competitive, teamScore := 0,
        players := [("A", { dx := 1, dy := 0 })], food := ⟨0, 0⟩ }
      "A" 2 0).players "A").map (fun p => (p.dx, p.dy)) = some (2, 0) := by
  rfl

/-! ## Claim C5: ready toggles while a round is running -/

/-- Updating the entry of `pid` is visible through `findPlayer pid`. -/
theorem findPlayer_update_self (ps : List (String × Player)) (pid : String)
    (f : Player → Player) :
    findPlayer (updatePlayer ps pid f) pid = (findPlayer ps pid).map f := by
  induction ps with
  | nil => rfl
  | cons q t ih =>
    show findPlayer
        ((if (q.1 == pid) = true then (q.1, f q.2) else q) :: updatePlayer t pid f)
        pid = (findPlayer (q :: t) pid).map f
    by_cases hq : q.1 = pid
    · rw [if_pos (by simpa using hq)]
      unfold findPlayer
      rw [@List.find?_cons_of_pos _ (fun z => z.1 == pid) (q.1, f q.2)
          (updatePlayer t pid f) (by simpa using hq),
        @List.find?_cons_of_pos _ (fun z => z.1 == pid) q t (by simpa using hq)]
      rfl
    · rw [if_neg (by simpa using hq)]
      unfold findPlayer
      rw [@List.find?_cons_of_neg _ (fun z => z.1 == pid) q
          (updatePlayer t pid f) (by simpa using hq),
        @List.find?_cons_of_neg _ (fun z => z.1 == pid) q t (by simpa using hq)]
      exact ih

/-- Updating the entry of `pid` leaves every other lookup unchanged. -/
theorem findPlayer_update_other (ps : List (String × Player))
    (pid other : String) (f : Player → Player) (hne : other ≠ pid) :
    findPlayer (updatePlayer ps pid f) other = findPlayer ps other := by
  induction ps with
  | nil => rfl
  | cons q t ih =>
    show findPlayer
        ((if (q.1 == pid) = true then (q.1, f q.2) else q) :: updatePlayer t pid f)
        other = findPlayer (q :: t) other
    by_cases hq : q.1 = pid
    · rw [if_pos (by simpa using hq)]
      have hno : ¬ ((q.1 == other) = true) := by
        simp only [hq, beq_iff_eq]
        exact fun hcc => hne hcc.symm
      unfold findPlayer
      rw [@List.find?_cons_of_neg _ (fun z => z.1 == other) (q.1, f q.2)
          (updatePlayer t pid f) hno,
        @List.find?_cons_of_neg _ (fun z => z.1 == other) q t hno]
      exact ih
    · by_cases h2 : q.1 = other
      · rw [if_neg (by simpa using hq)]
        unfold findPlayer
        rw [@List.find?_cons_of_pos _ (fun z => z.1 == other) q
            (updatePlayer t pid f) (by simpa using h2),
          @List.find?_cons_of_pos _ (fun z => z.1 == other) q t (by simpa using h2)]
      · rw [if_neg (by simpa using hq)]
        unfold findPlayer
        rw [@List.find?_cons_of_neg _ (fun z => z.1 == other) q
            (updatePlayer t pid f) (by simpa using h2),
          @List.find?_cons_of_neg _ (fun z => z.1 == other) q t (by simpa using h2)]
        exact ih

/-- C5, counterexample.  The claim says a `toggleReady` received while
IN_ROUND leaves the readiness flag unchanged.  In the code the handler
flips the flag unconditionally and only the `startGame` call is gated on
the lobby state: a ready player toggling mid-round ends up not-ready. -/
theorem C5_counterexample :
    (findPlayer (playerReadyToggle
      { gameState := .ingame, currentGamemode := .competitive,
        activeGamemode := .competitive, teamScore := 0,
        players := [("A", { isReady := true })], food := ⟨0, 0⟩ } "A").1.players
      "A").map (fun p => p.isReady) = some false ∧
    some false ≠ some true := by
  exact ⟨rfl, by decide⟩

/-- C5 (amended): a `toggleReady` received while IN_ROUND for an existing
player flips that player's readiness flag but changes nothing else: the
session phase, gamemodes, team score, food and every other player entry are
unchanged, and no round start is triggered. -/
theorem C5_amended_toggle_ingame (s : Session) (pid : String) (p : Player)
    (hstate : s.gameState = .ingame)
    (hp : findPlayer s.players pid = some p) :
    (playerReadyToggle s pid).2 = false ∧
    (playerReadyToggle s pid).1.gameState = s.gameState ∧
    (playerReadyToggle s pid).1.currentGamemode = s.currentGamemode ∧
    (playerReadyToggle s pid).1.activeGamemode = s.activeGamemode ∧
    (playerReadyToggle s pid).1.teamScore = s.teamScore ∧
    (playerReadyToggle s pid).1.food = s.food ∧
    findPlayer (playerReadyToggle s pid).1.players pid =
      some { p with isReady := !p.isReady } ∧
    ∀ other : String, other ≠ pid →
      findPlayer (playerReadyToggle s pid).1.players other =
        findPlayer s.players other := by
  unfold playerReadyToggle
  rw [hp]
  dsimp only
  refine ⟨?_, rfl, rfl, rfl, rfl, rfl, ?_, ?_⟩
  · rw [hstate]
    simp
  · rw [findPlayer_update_self, hp]
    rfl
  · intro other hne
    exact findPlayer_update_other s.players pid other _ hne

/-- A concrete one-player mid-round session used to instantiate the
ready-toggle lemma. -/
def toggleSession : Session :=
  { gameState := .ingame, currentGamemode := .competitive,
    activeGamemode := .competitive, teamScore := 0,
    players := [("A", { isReady := true })], food := ⟨0, 0⟩ }

/-- C5 witness: a concrete mid-round toggle for a one-player session. -/
theorem C5_witness :
    (playerReadyToggle toggleSession "A").2 = false ∧
    (playerReadyToggle toggleSession "A").1.gameState = toggleSession.gameState ∧
    (playerReadyToggle toggleSession "A").1.currentGamemode =
      toggleSession.currentGamemode ∧
    (playerReadyToggle toggleSession "A").1.activeGamemode =
      toggleSession.activeGamemode ∧
    (playerReadyToggle toggleSession "A").1.teamScore = toggleSession.teamScore ∧
    (playerReadyToggle toggleSession "A").1.food = toggleSession.food ∧
    findPlayer (playerReadyToggle toggleSession "A").1.players "A" =
      some { isReady := false } ∧
    ∀ other : String, other ≠ "A" →
      findPlayer (playerReadyToggle toggleSession "A").1.players other =
        findPlayer toggleSession.players other :=
  C5_amended_toggle_ingame toggleSession "A" { isReady := true } rfl rfl

/-! ## Claim C7: food never spawns on a living snake -/

/-- Any cell returned by the server `spawnFood` avoids every living
snake body. -/
theorem spawnFood_avoids (ps : List (String × Player)) (cs : List Pos) (c : Pos)
    (h : spawnFood ps cs = some c) :
    ∀ q ∈ ps, q.2.isAlive = true → c ∉ q.2.body := by
  induction cs with
  | nil => simp [spawnFood] at h
  | cons c0 rest ih =>
    by_cases hon : onAnyLivingSnake c0 ps = true
    · rw [spawnFood, if_pos hon] at h
      exact ih h
    · rw [spawnFood, if_neg hon] at h
      obtain rfl : c0 = c := by simpa using h
      intro q hq halive hmem
      refine hon ?_
      unfold onAnyLivingSnake
      rw [List.any_eq_true]
      exact ⟨q, hq, by simp [halive, hmem]⟩

/-- Any cell returned by the client `Food.spawn` avoids the given body. -/
theorem foodSpawn_avoids (body cs : List Pos) (c : Pos)
    (h : foodSpawn body cs = some c) : c ∉ body := by
  induction cs with
  | nil => simp [foodSpawn] at h
  | cons c0 rest ih =>
    by_cases hon : c0 ∈ body
    · rw [foodSpawn, if_pos hon] at h
      exact ih h
    · rw [foodSpawn, if_neg hon] at h
      obtain rfl : c0 = c := by simpa using h
      exact hon

/-- C7: every food spawn event avoids occupied cells — the server
`spawnFood` (used at round start and after every consumption) never
returns a cell lying on any living snake's body, and the client
`Food.spawn` never returns a cell lying on the body it is given. -/
theorem C7_food_never_on_snake :
    (∀ (ps : List (String × Player)) (cs : List Pos) (c : Pos),
        spawnFood ps cs = some c →
        ∀ q ∈ ps, q.2.isAlive = true → c ∉ q.2.body) ∧
    (∀ (body cs : List Pos) (c : Pos), foodSpawn body cs = some c → c ∉ body) :=
  ⟨spawnFood_avoids, foodSpawn_avoids⟩

/-- C7 witness: with one living snake on cells `(0,0)` and `(1,0)` and the
draws `(0,0)` then `(5,5)`, the first draw is rejected and the spawned
cell `(5,5)` indeed avoids the snake. -/
theorem C7_witness : (⟨5, 5⟩ : Pos) ∉ ([⟨0, 0⟩, ⟨1, 0⟩] : List Pos) :=
  C7_food_never_on_snake.1
    [("A", { body := [⟨0, 0⟩, ⟨1, 0⟩], isAlive := true })]
    [⟨0, 0⟩, ⟨5, 5⟩] ⟨5, 5⟩ rfl
    ("A", { body := [⟨0, 0⟩, ⟨1, 0⟩], isAlive := true })
    (List.mem_singleton.mpr rfl) rfl

/-! ## Claim C8: round setup -/

/-- The spawn placement returns a drawn cell avoiding the recorded heads. -/
theorem chooseSpawn_spec (heads cs : List Pos) (c : Pos)
    (h : chooseSpawn heads cs = some c) : c ∉ heads ∧ c ∈ cs := by
  induction cs with
  | nil => simp [chooseSpawn] at h
  | cons c0 rest ih =>
    by_cases hm : c0 ∈ heads
    · rw [chooseSpawn, if_pos hm] at h
      obtain ⟨h1, h2⟩ := ih h
      exact ⟨h1, List.mem_cons_of_mem _ h2⟩
    · rw [chooseSpawn, if_neg hm] at h
      obtain rfl : c0 = c := by simpa using h
      exact ⟨hm, List.mem_cons_self _ _⟩

/-- C8, counterexample.  The claim says the spawn cell avoids every cell of
every other snake body and that no two bodies overlap after setup.  The
placement loop of `setupPlayerForGame` only compares the draw against the
recorded head positions `(p.x, p.y)` of the other players: with an existing
snake whose head is `(5,5)` and whose body covers `(5,5), (4,5), (3,5)`, the
draw `(4,5)` — a body cell of that snake — is accepted, and the new body
`(4,5), (3,5), (2,5)` overlaps the existing one in two cells. -/
theorem C8_counterexample :
    (setupPlayerForGame [⟨5, 5⟩] [⟨4, 5⟩] { }).map
        (fun q => (q.x, q.y, q.body)) =
      some (4, 5, [⟨4, 5⟩, ⟨3, 5⟩, ⟨2, 5⟩]) ∧
    (⟨4, 5⟩ : Pos) ∈ ([⟨5, 5⟩, ⟨4, 5⟩, ⟨3, 5⟩] : List Pos) ∧
    (⟨3, 5⟩ : Pos) ∈ ([⟨5, 5⟩, ⟨4, 5⟩, ⟨3, 5⟩] : List Pos) := by
  refine ⟨rfl, by decide, by decide⟩

/-- C8 (amended): a successful `setupPlayerForGame` gives the player a spawn
cell distinct from the recorded head position of every already placed
player (bodies are not consulted, so bodies may overlap), an initial body
of length 3 clipped at the left grid edge whose head is the spawn cell and
whose cells are all in bounds, direction `(1, 0)`, score `0` and
`isAlive = true`. -/
theorem C8_amended_setup (heads cs : List Pos) (p q : Player)
    (hq : setupPlayerForGame heads cs p = some q)
    (hcs : ∀ c ∈ cs, inBoundsP c) :
    (∀ h ∈ heads, (⟨q.x, q.y⟩ : Pos) ≠ h) ∧
    q.dx = 1 ∧ q.dy = 0 ∧ q.score = 0 ∧ q.isAlive = true ∧
    q.body.head? = some ⟨q.x, q.y⟩ ∧
    (2 ≤ q.x → q.body.length = 3) ∧ q.body.length ≤ 3 ∧
    (∀ c ∈ q.body, inBoundsP c) := by
  unfold setupPlayerForGame at hq
  cases hcho : chooseSpawn heads cs with
  | none => rw [hcho] at hq; simp at hq
  | some c =>
    rw [hcho] at hq
    simp only [Option.map_some', Option.some.injEq] at hq
    obtain ⟨hnh, hmem⟩ := chooseSpawn_spec heads cs c hcho
    obtain ⟨hx0, hx1, hy0, hy1⟩ := hcs c hmem
    subst hq
    dsimp only
    refine ⟨?_, rfl, rfl, rfl, rfl, ?_, ?_, ?_, ?_⟩
    · intro h hh heq
      have heq2 : c = h := heq
      exact hnh (by rw [heq2]; exact hh)
    · unfold buildBody
      split_ifs <;> rfl
    · intro hx2
      unfold buildBody
      rw [if_pos (by omega), if_pos (by omega)]
      rfl
    · unfold buildBody
      split_ifs <;> simp
    · intro d hd
      unfold buildBody at hd
      split_ifs at hd with h1 h2 <;>
        simp only [List.mem_cons, List.not_mem_nil, or_false] at hd
      · rcases hd with rfl | rfl | rfl
        · exact ⟨hx0, hx1, hy0, hy1⟩
        · exact ⟨h1, show c.x - 1 < FIXED_TILE_COUNT_X by omega, hy0, hy1⟩
        · exact ⟨h2, show c.x - 2 < FIXED_TILE_COUNT_X by omega, hy0, hy1⟩
      · rcases hd with rfl | rfl
        · exact ⟨hx0, hx1, hy0, hy1⟩
        · exact ⟨h1, show c.x - 1 < FIXED_TILE_COUNT_X by omega, hy0, hy1⟩
      · rcases hd with rfl
        exact ⟨hx0, hx1, hy0, hy1⟩

/-- The player produced by a concrete successful setup away from the edge. -/
def setupSample : Player := (setupPlayerForGame [⟨9, 9⟩] [⟨5, 5⟩] { }).getD { }

/-- C8 witness: a concrete successful setup away from the edge. -/
theorem C8_witness :
    (∀ h ∈ ([⟨9, 9⟩] : List Pos),
      (⟨setupSample.x, setupSample.y⟩ : Pos) ≠ h) ∧
    setupSample.dx = 1 ∧ setupSample.dy = 0 ∧ setupSample.score = 0 ∧
    setupSample.isAlive = true ∧
    setupSample.body.head? = some ⟨setupSample.x, setupSample.y⟩ ∧
    (2 ≤ setupSample.x → setupSample.body.length = 3) ∧
    setupSample.body.length ≤ 3 ∧
    (∀ c ∈ setupSample.body, inBoundsP c) :=
  C8_amended_setup [⟨9, 9⟩] [⟨5, 5⟩] { } setupSample rfl (by decide)

/-! ## Claim C1: ordering of movement commitment and cross-snake checks -/

/-- C1, counterexample.  Two snakes in a competitive tick: the first
(head `(5,5)`, moving right, candidate head `(6,5)`) survives the wall and
self checks, the second (head `(6,6)`, moving down) commits its head to
`(6,7)`, leaving body `(6,7), (6,6), (6,5)`.  The first snake dies only in
the snake-vs-snake collision step — its head lies in the second snake's
body — yet its committed body starts with its candidate head `(6,5)`,
because the code commits movement in step 2 before the cross-snake checks
of step 3.  This refutes the claim that a snake dying in the cross-snake
collision step does not insert its candidate head, and with it the claim
that the cross-snake checks run against the pre-movement snapshot. -/
theorem C1_counterexample :
    ((tick .competitive ⟨0, 0⟩ 0
        [{ dx := 1, dy := 0, body := [⟨5, 5⟩, ⟨4, 5⟩, ⟨3, 5⟩], x := 5, y := 5 },
         { dx := 0, dy := 1, body := [⟨6, 6⟩, ⟨6, 5⟩, ⟨6, 4⟩], x := 6, y := 6 }]).players.map
      (fun p => (p.isAlive, p.body.head?))) =
      [(false, some ⟨6, 5⟩), (true, some ⟨6, 7⟩)] := by
  rfl

/-- C1 (amended): movement is committed in step 2, before the cross-snake
collision step, and step 3 only ever clears alive flags: every snake that
enters the tick alive with a nonempty body and survives the wall and self
checks has its candidate head as `body[0]` (and as its `x`/`y` position) in
the tick result, whether or not it dies in the cross-snake collision step;
the cross-snake checks therefore compare post-movement bodies, not the
pre-movement snapshot. -/
theorem C1_amended_commit_before_crosscheck (food : Pos) (ts : Nat)
    (ps : List Player) (i : Nat) (p : Player) (c : Pos)
    (hp : ps.get? i = some p)
    (hc : c = ⟨(headOf p).x + p.dx, (headOf p).y + p.dy⟩)
    (halive : p.isAlive = true) (hbody : p.body ≠ [])
    (hin : inBoundsP c) (hself : c ∉ p.body.drop 1)
    (hlast : c ≠ p.body.getLastD ⟨0, 0⟩) :
    ∃ q, (tick .competitive food ts ps).players.get? i = some q ∧
      q.body.head? = some c ∧ q.x = c.x ∧ q.y = c.y := by
  have hmove : ((movePlayer food p).player).body.head? = some c ∧
      ((movePlayer food p).player).x = c.x ∧
      ((movePlayer food p).player).y = c.y := by
    by_cases hf : c = food
    · rw [movePlayer_eat food p c hc halive hbody hf hin (by
        rw [List.drop_append_of_le_length
          (by have := List.length_pos.mpr hbody; omega)]
        intro hmem
        rcases List.mem_append.mp hmem with h | h
        · exact hself h
        · exact hlast (List.mem_singleton.mp h))]
      exact ⟨rfl, rfl, rfl⟩
    · rw [movePlayer_no_eat food p c hc halive hbody hf hin hself]
      refine ⟨?_, rfl, rfl⟩
      cases hb : p.body with
      | nil => exact absurd hb hbody
      | cons a t =>
        show ((c :: a :: t).dropLast).head? = some c
        rw [List.dropLast_cons₂]
        rfl
  have hget : ((moveAll food ps).1).get? i = some ((movePlayer food p).player) := by
    rw [moveAll_fst, List.get?_map, hp]
    rfl
  have hcoll := snakeCollisions_get? ((moveAll food ps).1) i
  unfold tick
  dsimp only
  rw [if_pos rfl]
  cases hres : (snakeCollisions (moveAll food ps).1).get? i with
  | none =>
    rw [hres, hget] at hcoll
    simp at hcoll
  | some q =>
    rw [hres, hget] at hcoll
    simp only [Option.map_some', Option.some.injEq] at hcoll
    have hbodyq : q.body = ((movePlayer food p).player).body := by
      have tmp := congrArg Player.body hcoll
      exact tmp
    have hxq : q.x = ((movePlayer food p).player).x := by
      have tmp := congrArg Player.x hcoll
      exact tmp
    have hyq : q.y = ((movePlayer food p).player).y := by
      have tmp := congrArg Player.y hcoll
      exact tmp
    exact ⟨q, rfl, by rw [hbodyq]; exact hmove.1,
      by rw [hxq]; exact hmove.2.1, by rw [hyq]; exact hmove.2.2⟩

/-- C1 witness: the first snake of the counterexample configuration — it
dies in the cross-snake step, and the theorem still yields its committed
candidate head `(6,5)`. -/
theorem C1_witness :
    ∃ q, (tick .competitive ⟨0, 0⟩ 0
        [{ dx := 1, dy := 0, body := [⟨5, 5⟩, ⟨4, 5⟩, ⟨3, 5⟩], x := 5, y := 5 },
         { dx := 0, dy := 1, body := [⟨6, 6⟩, ⟨6, 5⟩, ⟨6, 4⟩], x := 6, y := 6 }]).players.get? 0 =
      some q ∧ q.body.head? = some ⟨6, 5⟩ ∧ q.x = 6 ∧ q.y = 5 :=
  C1_amended_commit_before_crosscheck ⟨0, 0⟩ 0
    [{ dx := 1, dy := 0, body := [⟨5, 5⟩, ⟨4, 5⟩, ⟨3, 5⟩], x := 5, y := 5 },
     { dx := 0, dy := 1, body := [⟨6, 6⟩, ⟨6, 5⟩, ⟨6, 4⟩], x := 6, y := 6 }]
    0 { dx := 1, dy := 0, body := [⟨5, 5⟩, ⟨4, 5⟩, ⟨3, 5⟩], x := 5, y := 5 }
    ⟨6, 5⟩ rfl (by decide) rfl (by decide) (by decide) (by decide) (by decide)

/-! ## Claim C9: the single-player scenario -/

/-- C9: in a single-player competitive round with a straight length-3 snake
heading right from strictly inside the grid, a tick whose food is not at
the candidate head keeps body length 3, advances the head by exactly one
cell to the right and keeps score 0; a tick whose food sits at the
candidate head gives body length 4 and score 1, the snake staying alive in
both cases. -/
theorem C9_single_player_scenario (x y : Int) (ts : Nat) (food : Pos)
    (hx0 : 0 ≤ x) (hx : x + 1 < FIXED_TILE_COUNT_X)
    (hy0 : 0 ≤ y) (hy : y < FIXED_TILE_COUNT_Y) :
    (food ≠ ⟨x + 1, y⟩ →
      (tick .competitive food ts
          [{ dx := 1, dy := 0, body := [⟨x, y⟩, ⟨x - 1, y⟩, ⟨x - 2, y⟩],
             x := x, y := y, score := 0, isAlive := true }]).players.map
        (fun q => (q.body.length, q.body.head?, q.score, q.isAlive)) =
      [(3, some ⟨x + 1, y⟩, 0, true)]) ∧
    (food = ⟨x + 1, y⟩ →
      (tick .competitive food ts
          [{ dx := 1, dy := 0, body := [⟨x, y⟩, ⟨x - 1, y⟩, ⟨x - 2, y⟩],
             x := x, y := y, score := 0, isAlive := true }]).players.map
        (fun q => (q.body.length, q.body.head?, q.score, q.isAlive)) =
      [(4, some ⟨x + 1, y⟩, 1, true)]) := by
  constructor
  · intro hf
    have hm := movePlayer_no_eat food
      { dx := 1, dy := 0, body := [⟨x, y⟩, ⟨x - 1, y⟩, ⟨x - 2, y⟩],
        x := x, y := y, score := 0, isAlive := true }
      ⟨x + 1, y⟩ (by simp [headOf]) rfl (by simp)
      (fun hcc => hf hcc.symm)
      (by refine ⟨?_, ?_, ?_, ?_⟩ <;> simp <;> omega)
      (by
        intro hmem
        simp at hmem
        omega)
    unfold tick
    dsimp only
    rw [if_pos rfl]
    simp only [moveAll, hm]
    rw [snakeCollisions_singleton]
    simp
  · intro hf
    have hm := movePlayer_eat food
      { dx := 1, dy := 0, body := [⟨x, y⟩, ⟨x - 1, y⟩, ⟨x - 2, y⟩],
        x := x, y := y, score := 0, isAlive := true }
      ⟨x + 1, y⟩ (by simp [headOf]) rfl (by simp) hf.symm
      (by refine ⟨?_, ?_, ?_, ?_⟩ <;> simp <;> omega)
      (by
        intro hmem
        simp at hmem
        omega)
    unfold tick
    dsimp only
    rw [if_pos rfl]
    simp only [moveAll, hm]
    rw [snakeCollisions_singleton]
    simp

/-- C9 witness: the concrete snake at `(5,5)`, with the food away from the
path and then at the candidate head `(6,5)`. -/
theorem C9_witness :
    ((⟨0, 0⟩ : Pos) ≠ ⟨5 + 1, 5⟩ →
      (tick .competitive ⟨0, 0⟩ 0
          [{ dx := 1, dy := 0, body := [⟨5, 5⟩, ⟨5 - 1, 5⟩, ⟨5 - 2, 5⟩],
             x := 5, y := 5, score := 0, isAlive := true }]).players.map
        (fun q => (q.body.length, q.body.head?, q.score, q.isAlive)) =
      [(3, some ⟨5 + 1, 5⟩, 0, true)]) ∧
    ((⟨0, 0⟩ : Pos) = ⟨5 + 1, 5⟩ →
      (tick .competitive ⟨0, 0⟩ 0
          [{ dx := 1, dy := 0, body := [⟨5, 5⟩, ⟨5 - 1, 5⟩, ⟨5 - 2, 5⟩],
             x := 5, y := 5, score := 0, isAlive := true }]).players.map
        (fun q => (q.body.length, q.body.head?, q.score, q.isAlive)) =
      [(4, some ⟨5 + 1, 5⟩, 1, true)]) :=
  C9_single_player_scenario 5 5 0 ⟨0, 0⟩ (by decide) (by decide) (by decide)
    (by decide)

/-! ## Claim C10: eating and dying in the same tick -/

/-- C10: a snake whose candidate head is the food cell but lies on its own
body (after growth) still has its score incremented, the food is consumed
(`eaters = 1`, which triggers the respawn, and the team score rises by one
in cooperative mode), and the dead snake keeps its old head with one
duplicated tail segment appended: the candidate head is never committed. -/
theorem C10_eat_then_die (mode : Gamemode) (ts : Nat) (p : Player) (c : Pos)
    (hc : c = ⟨(headOf p).x + p.dx, (headOf p).y + p.dy⟩)
    (halive : p.isAlive = true) (hbody : p.body ≠ [])
    (hin : inBoundsP c) (hself : c ∈ p.body.drop 1) :
    (tick mode c ts [p]).players =
      [{ p with score := p.score + 1,
                body := p.body ++ [p.body.getLastD ⟨0, 0⟩],
                isAlive := false }] ∧
    (tick mode c ts [p]).eaters = 1 ∧
    (tick mode c ts [p]).teamScore =
      ts + (if mode = .cooperative then 1 else 0) := by
  have hm := movePlayer_eat_die c p c hc halive hbody rfl hin hself
  unfold tick
  dsimp only
  simp only [moveAll, hm]
  refine ⟨?_, rfl, ?_⟩
  · cases mode with
    | competitive =>
      rw [if_pos rfl]
      exact snakeCollisions_singleton _
    | cooperative =>
      rw [if_neg (by decide)]
  · cases mode <;> rfl

/-- The concrete almost-looped snake used to instantiate the
eat-then-die lemma: moving right from `(5,5)`, its candidate head `(6,5)`
is both the food cell and its own fourth body cell. -/
def loopSnake : Player :=
  { dx := 1, dy := 0, body := [⟨5, 5⟩, ⟨5, 6⟩, ⟨6, 6⟩, ⟨6, 5⟩, ⟨7, 5⟩],
    x := 5, y := 5, score := 0, isAlive := true }

/-- C10 witness: the looped snake in a cooperative tick with team score 7:
it dies, scores, and the team score becomes 8. -/
theorem C10_witness :
    (tick .cooperative ⟨6, 5⟩ 7 [loopSnake]).players =
      [{ loopSnake with score := loopSnake.score + 1,
                        body := loopSnake.body ++ [loopSnake.body.getLastD ⟨0, 0⟩],
                        isAlive := false }] ∧
    (tick .cooperative ⟨6, 5⟩ 7 [loopSnake]).eaters = 1 ∧
    (tick .cooperative ⟨6, 5⟩ 7 [loopSnake]).teamScore =
      7 + (if Gamemode.cooperative = Gamemode.cooperative then 1 else 0) :=
  C10_eat_then_die .cooperative 7 loopSnake ⟨6, 5⟩ (by decide) rfl (by decide)
    (by decide) (by decide)

end Battlesnakes
